import Mathlib

/-!
# XPCE event handlers and views

A shallow embedding of `packages/xpce/src/evt/handler.c` (class `handler`) and of
`editorView` from `packages/xpce/src/win/view.c` (class `view`).

XPCE objects live on a heap and are addressed by reference.  The embedding keeps
an explicit instance-variable store (`World.slots`), passes it through every
operation, and records each call that leaves the translated functions and may
have an effect (`forwardReceiverCodev`, `send`, `newObject`) in a trace.
The functions of the XPCE kernel that the two files call but do not define are
the fields of `Kernel`; the theorems quantify over all kernels.
-/

namespace XPCE

/-! ## Object model -/

/-- Names (`NAME_xxx`): interned atoms, identified by their text. -/
abbrev Name := String

/-- A value of type `Any`: one of the constant objects `NIL`, `DEFAULT`, `ON`,
`OFF`, a tagged integer, a name, or a reference to a heap object. -/
inductive Any where
  | NIL : Any
  | DEFAULT : Any
  | ON : Any
  | OFF : Any
  | int (i : Int) : Any
  | name (n : Name) : Any
  | obj (ref : Nat) : Any
  deriving DecidableEq

open Any

/-- Modelled from the spec: the result type `status` of `h/kernel.h`, a header
that is not among the sources.  An operation either succeeds or fails, so the
type has the two values `SUCCEED` and `FAIL`, and a C condition on a status is
true exactly for `SUCCEED`. -/
abbrev status := Bool

/-- Value returned by the `succeed` statement. -/
abbrev SUCCEED : status := true

/-- Value returned by the `fail` statement. -/
abbrev FAIL : status := false

/-- The integer object `ZERO`. -/
abbrev ZERO : Any := Any.int 0

/-- Modelled from the spec: the test `isNil(x)` of `h/kernel.h`, true when the
optional value is absent, which is identity with the constant `NIL`. -/
def isNil (x : Any) : Bool := decide (x = NIL)

/-- Modelled from the spec: the test `notNil(x)` of `h/kernel.h`, the negation
of `isNil(x)`. -/
def notNil (x : Any) : Bool := decide (x ≠ NIL)

/-- Modelled from the spec: the test `isDefault(x)` of `h/kernel.h`, true when
the optional value is left unset, which is identity with the constant
`DEFAULT`. -/
def isDefault (x : Any) : Bool := decide (x = DEFAULT)

abbrev NAME_active : Name := "active"
abbrev NAME_event : Name := "event"
abbrev NAME_message : Name := "message"
abbrev NAME_region : Name := "region"
abbrev NAME_receiver : Name := "receiver"
abbrev NAME_area : Name := "area"
abbrev NAME_editor : Name := "editor"
abbrev NAME_keyboard_focus : Name := "keyboard_focus"
abbrev NAME_destroy : Name := "destroy"
abbrev NAME_set : Name := "set"
abbrev NAME_display : Name := "display"
abbrev NAME_resizeMessage : Name := "resize_message"
abbrev NAME_Size : Name := "_size"

/-- The heap: `slots o n` is the instance variable `n` of object `o` (the C
expression `o->n`); `ext` is whatever else the runtime keeps (event hierarchy,
displays, reference counts). -/
structure World (σ : Type) where
  slots : Any → Name → Any
  ext : σ

/-- Modelled from the spec: the statement `assign(o, n, v)` of `h/kernel.h`, a
header that is not among the sources.  It stores `v` in instance variable `n`
of `o` and leaves every other instance variable alone. -/
def assign {σ : Type} (o : Any) (n : Name) (v : Any) (w : World σ) : World σ :=
  { w with slots := fun o2 n2 => if o2 = o ∧ n2 = n then v else w.slots o2 n2 }

/-- A call that leaves the translated code and may have effects. -/
inductive Call where
  | forward (msg : Any) (receiver : Any) (argv : List Any) : Call
  | send (receiver : Any) (selector : Name) (argv : List Any) : Call
  | newObject (cls : Any) (argv : List Any) : Call
  deriving DecidableEq

/-- The kernel functions called by `handler.c` and `view.c` whose definitions
are not among the sources.  The queries read the heap; `forwardReceiverCodev`,
`send` and `newObject` may also change it. -/
structure Kernel (σ : Type) where
  /-- Query `isAEvent(ev, id)`. -/
  isAEvent : World σ → Any → Any → status
  /-- Query `insideRegion(region, area, position)`. -/
  insideRegion : World σ → Any → Any → Any → status
  /-- Query `getAreaPositionEvent(ev, gr)`. -/
  getAreaPositionEvent : World σ → Any → Any → Any
  /-- Query `getMasterEvent(ev)`. -/
  getMasterEvent : World σ → Any → Any
  /-- Call `forwardReceiverCodev(msg, receiver, argc, argv)`, with `argv` the
  `argc` arguments. -/
  forwardReceiverCodev : Any → Any → List Any → World σ → status × World σ
  /-- Call `send(receiver, selector, args..., 0)`. -/
  send : Any → Name → List Any → World σ → status × World σ
  /-- Call `newObject(class, args..., 0)`; `none` is the C null pointer. -/
  newObject : Any → List Any → World σ → Option Any × World σ
  /-- The class object `ClassMessage`. -/
  ClassMessage : Any
  /-- The argument-forwarding objects `Arg(n)`. -/
  Arg : Nat → Any

/-- Machine state: the heap and the calls made so far, oldest first. -/
structure State (σ : Type) where
  world : World σ
  trace : List Call

/-- Run `forwardReceiverCodev` on the state and log the call. -/
def callForward {σ : Type} (K : Kernel σ) (msg receiver : Any) (argv : List Any)
    (s : State σ) : status × State σ :=
  let r := K.forwardReceiverCodev msg receiver argv s.world
  (r.1, { world := r.2, trace := s.trace ++ [Call.forward msg receiver argv] })

/-- Run `send` on the state and log the call. -/
def callSend {σ : Type} (K : Kernel σ) (receiver : Any) (selector : Name)
    (argv : List Any) (s : State σ) : status × State σ :=
  let r := K.send receiver selector argv s.world
  (r.1, { world := r.2, trace := s.trace ++ [Call.send receiver selector argv] })

/-- Run `newObject` on the state and log the call. -/
def callNewObject {σ : Type} (K : Kernel σ) (cls : Any) (argv : List Any)
    (s : State σ) : Option Any × State σ :=
  let r := K.newObject cls argv s.world
  (r.1, { world := r.2, trace := s.trace ++ [Call.newObject cls argv] })

/-! ## handler.c -/

/-- Function `initialiseHandler(h, id, msg, reg)` of handler.c, lines 13-21. -/
def initialiseHandler {σ : Type} (h id msg reg : Any) (w : World σ) : status × World σ :=
  let w1 := assign h NAME_active ON w
  let w2 := assign h NAME_event id w1
  let w3 := assign h NAME_message msg w2
  let w4 := assign h NAME_region reg w3
  (SUCCEED, w4)

/-- Function `eventHandler(h, ev)` of handler.c, lines 24-49.  The `DEBUG`
line only prints when the debugging topic is switched on and is left out. -/
def eventHandler {σ : Type} (K : Kernel σ) (h ev : Any) (s : State σ) : status × State σ :=
  if K.isAEvent s.world ev (s.world.slots h NAME_event) then
    if isDefault (s.world.slots h NAME_region) then
      if isNil (s.world.slots h NAME_message) then
        (SUCCEED, s)
      else
        callForward K (s.world.slots h NAME_message) (K.getMasterEvent s.world ev) [ev] s
    else
      let gr := s.world.slots ev NAME_receiver
      if K.insideRegion s.world (s.world.slots h NAME_region) (s.world.slots gr NAME_area)
          (K.getAreaPositionEvent s.world ev gr) == SUCCEED then
        if notNil (s.world.slots h NAME_message) then
          callForward K (s.world.slots h NAME_message) (K.getMasterEvent s.world ev) [ev] s
        else
          (SUCCEED, s)
      else
        (FAIL, s)
  else
    (FAIL, s)

/-! ## view.c -/

/-- The argument list of a `send` whose only argument is the result of
`newObject`: the variable argument list ends at the first null pointer. -/
def argsUpToNull (o : Option Any) : List Any :=
  match o with
  | some x => [x]
  | none => []

/-- Function `editorView(v, editor)` of view.c, lines 47-61.  The results of
the `send` calls are discarded, as in the source. -/
def editorView {σ : Type} (K : Kernel σ) (v editor : Any) (s : State σ) : status × State σ :=
  let s1 :=
    if notNil (s.world.slots v NAME_editor) then
      let s0 : State σ := { s with world := assign v NAME_editor NIL s.world }
      (callSend K (s0.world.slots v NAME_editor) NAME_destroy [] s0).2
    else
      s
  let s2 : State σ := { s1 with world := assign v NAME_editor editor s1.world }
  let s3 := (callSend K editor NAME_set [ZERO, ZERO] s2).2
  let s4 := (callSend K v NAME_display [editor] s3).2
  let m := callNewObject K K.ClassMessage [editor, Any.name NAME_Size, K.Arg 2] s4
  let s5 := (callSend K v NAME_resizeMessage (argsUpToNull m.1) m.2).2
  let s6 : State σ := { s5 with world := assign v NAME_keyboard_focus editor s5.world }
  (SUCCEED, s6)

/-! ## Vocabulary of the dispatch contract -/

/-- Answer of the type test made by `eventHandler` in heap `w`. -/
def typeAnswer {σ : Type} (K : Kernel σ) (h ev : Any) (w : World σ) : status :=
  K.isAEvent w ev (w.slots h NAME_event)

/-- Answer of the region test made by `eventHandler` in heap `w`: the handler
region against the area of the event receiver and the position of the event
relative to that receiver. -/
def regionAnswer {σ : Type} (K : Kernel σ) (h ev : Any) (w : World σ) : status :=
  K.insideRegion w (w.slots h NAME_region) (w.slots (w.slots ev NAME_receiver) NAME_area)
    (K.getAreaPositionEvent w ev (w.slots ev NAME_receiver))

/-- The region gate: the region is unset, or it is set and the position is
inside. -/
def passesRegion {σ : Type} (K : Kernel σ) (h ev : Any) (w : World σ) : Prop :=
  w.slots h NAME_region = DEFAULT ∨ regionAnswer K h ev w = SUCCEED

/-- The one callback invocation the contract allows: the message of the
handler, forwarded to the master of the event with the event as only argument. -/
def callbackCall {σ : Type} (K : Kernel σ) (h ev : Any) (w : World σ) : Call :=
  Call.forward (w.slots h NAME_message) (K.getMasterEvent w ev) [ev]

/-- What that invocation returns in heap `w`: its status and the heap it leaves. -/
def callbackRun {σ : Type} (K : Kernel σ) (h ev : Any) (w : World σ) : status × World σ :=
  K.forwardReceiverCodev (w.slots h NAME_message) (K.getMasterEvent w ev) [ev] w

/-- State after the callback ran once from `s`. -/
def afterCallback {σ : Type} (K : Kernel σ) (h ev : Any) (s : State σ) : State σ :=
  { world := (callbackRun K h ev s.world).2, trace := s.trace ++ [callbackCall K h ev s.world] }

/-! ## A concrete kernel and scene

The scenarios of the specification need kernel functions that compute.  The
ones below follow the description the specification gives of each collaborator.
-/

abbrev NAME_id : Name := "id"
abbrev NAME_position : Name := "position"
abbrev NAME_x : Name := "x"
abbrev NAME_y : Name := "y"
abbrev NAME_w : Name := "w"
abbrev NAME_h : Name := "h"

/-- The integer held by a tagged integer object, `valInt(i)`; 0 for other
values. -/
def valInt (a : Any) : Int :=
  match a with
  | Any.int i => i
  | _ => 0

/-- Modelled from the spec: `isAEvent`, whose definition is not among the
sources, as exact identity of the event type with the event id of the handler. -/
def sampleIsAEvent {σ : Type} (w : World σ) (ev id : Any) : status :=
  decide (w.slots ev NAME_id = id)

/-- Modelled from the spec: `insideRegion`, whose definition is not among the
sources: true iff the position lies within the intersection of the area of the
receiver and the region, both in coordinates local to the receiver. -/
def sampleInsideRegion {σ : Type} (w : World σ) (region area pos : Any) : status :=
  let px := valInt (w.slots pos NAME_x)
  let py := valInt (w.slots pos NAME_y)
  decide (0 ≤ px ∧ px ≤ valInt (w.slots area NAME_w) ∧
    0 ≤ py ∧ py ≤ valInt (w.slots area NAME_h) ∧
    valInt (w.slots region NAME_x) ≤ px ∧
    px ≤ valInt (w.slots region NAME_x) + valInt (w.slots region NAME_w) ∧
    valInt (w.slots region NAME_y) ≤ py ∧
    py ≤ valInt (w.slots region NAME_y) + valInt (w.slots region NAME_h))

/-- Modelled from the spec: `getAreaPositionEvent`, whose definition is not
among the sources: the location of the event in the coordinates of the
receiver, which the sample events carry in their `position` variable. -/
def samplePosition {σ : Type} (w : World σ) (ev _gr : Any) : Any :=
  w.slots ev NAME_position

/-- Modelled from the spec: `getMasterEvent`, whose definition is not among the
sources: the sample events are their own master. -/
def sampleMaster {σ : Type} (_w : World σ) (ev : Any) : Any := ev

/-- A kernel whose callbacks count their invocations in the heap and return
`cb`, whose `send` returns `cb`, whose `newObject` returns object 100 and whose
`Arg(n)` is object `200 + n`. -/
def sampleKernel (cb : status) : Kernel Nat where
  isAEvent := sampleIsAEvent
  insideRegion := sampleInsideRegion
  getAreaPositionEvent := samplePosition
  getMasterEvent := sampleMaster
  forwardReceiverCodev := fun _ _ _ w => (cb, { w with ext := w.ext + 1 })
  send := fun _ _ _ w => (cb, { w with ext := w.ext + 1 })
  newObject := fun _ _ w => (some (Any.obj 100), w)
  ClassMessage := Any.name "message"
  Arg := fun n => Any.obj (200 + n)

/-- Heap of the sample scene.  Object 1 is a handler and object 8 a second,
inactive handler, both for event id `spec` with message `msg` and region `reg`;
object 2 is an event of type `ty` received by graphical 3, whose area is object
4 (a 100 by 100 box), at the position `(px, py)` held by object 6; object 5 is
the region `Rect(0,0,10,10)`; object 9 is a view showing editor 10. -/
def sampleSlots (spec ty : Name) (msg reg : Any) (px py : Int) (o : Any) (n : Name) : Any :=
  match o with
  | Any.obj 1 =>
    if n = NAME_active then ON
    else if n = NAME_event then Any.name spec
    else if n = NAME_message then msg
    else if n = NAME_region then reg
    else NIL
  | Any.obj 8 =>
    if n = NAME_active then OFF
    else if n = NAME_event then Any.name spec
    else if n = NAME_message then msg
    else if n = NAME_region then reg
    else NIL
  | Any.obj 2 =>
    if n = NAME_id then Any.name ty
    else if n = NAME_receiver then Any.obj 3
    else if n = NAME_position then Any.obj 6
    else NIL
  | Any.obj 3 => if n = NAME_area then Any.obj 4 else NIL
  | Any.obj 4 =>
    if n = NAME_w then Any.int 100 else if n = NAME_h then Any.int 100 else Any.int 0
  | Any.obj 5 =>
    if n = NAME_w then Any.int 10 else if n = NAME_h then Any.int 10 else Any.int 0
  | Any.obj 6 =>
    if n = NAME_x then Any.int px else if n = NAME_y then Any.int py else NIL
  | Any.obj 9 => if n = NAME_editor then Any.obj 10 else NIL
  | _ => NIL

/-- Initial state of the sample scene: no callback has run, nothing is logged. -/
def sampleState (spec ty : Name) (msg reg : Any) (px py : Int) : State Nat :=
  { world := { slots := sampleSlots spec ty msg reg px py, ext := 0 }, trace := [] }

/-- The sample kernel with a callback that clears the message of handler 1
and fails, at every call. -/
def clearingKernel : Kernel Nat :=
  { sampleKernel FAIL with
    forwardReceiverCodev := fun _ _ _ w => (FAIL, assign (Any.obj 1) NAME_message NIL w) }

/-! ## Results on handler.c -/

/-- Claim C8: `initialiseHandler` always succeeds and leaves the handler with
`active = ON`, `event = id`, `message = msg` and `region = reg`, stored exactly
as passed; no other instance variable of any object changes. -/
theorem initialiseHandler_spec {σ : Type} (h id msg reg : Any) (w : World σ) :
    (initialiseHandler h id msg reg w).1 = SUCCEED ∧
    (initialiseHandler h id msg reg w).2.slots h NAME_active = ON ∧
    (initialiseHandler h id msg reg w).2.slots h NAME_event = id ∧
    (initialiseHandler h id msg reg w).2.slots h NAME_message = msg ∧
    (initialiseHandler h id msg reg w).2.slots h NAME_region = reg ∧
    (initialiseHandler h id msg reg w).2.ext = w.ext ∧
    (∀ o n, ¬ (o = h ∧ (n = NAME_active ∨ n = NAME_event ∨ n = NAME_message ∨ n = NAME_region)) →
      (initialiseHandler h id msg reg w).2.slots o n = w.slots o n) := by
  refine ⟨rfl, ?_, ?_, ?_, ?_, rfl, ?_⟩
  · simp [initialiseHandler, assign, NAME_active, NAME_event, NAME_message, NAME_region]
  · simp [initialiseHandler, assign, NAME_event, NAME_message, NAME_region]
  · simp [initialiseHandler, assign, NAME_message, NAME_region]
  · simp [initialiseHandler, assign]
  · intro o n hn
    simp only [initialiseHandler, assign]
    by_cases ho : o = h
    · subst ho
      simp only [true_and, not_or] at hn
      simp [hn.1, hn.2.1, hn.2.2.1, hn.2.2.2]
    · simp [ho]

/-- The three outcomes of `eventHandler`, in one equation for each path. -/
theorem eventHandler_cases {σ : Type} (K : Kernel σ) (h ev : Any) (s : State σ) :
    (typeAnswer K h ev s.world = FAIL → eventHandler K h ev s = (FAIL, s)) ∧
    (typeAnswer K h ev s.world = SUCCEED → ¬ passesRegion K h ev s.world →
      eventHandler K h ev s = (FAIL, s)) ∧
    (typeAnswer K h ev s.world = SUCCEED → passesRegion K h ev s.world →
      s.world.slots h NAME_message = NIL → eventHandler K h ev s = (SUCCEED, s)) ∧
    (typeAnswer K h ev s.world = SUCCEED → passesRegion K h ev s.world →
      s.world.slots h NAME_message ≠ NIL →
      eventHandler K h ev s = ((callbackRun K h ev s.world).1, afterCallback K h ev s)) := by
  refine ⟨?_, ?_, ?_, ?_⟩
  · intro hT
    simp only [typeAnswer] at hT
    simp [eventHandler, hT]
  · intro hT hR
    simp only [typeAnswer] at hT
    simp only [passesRegion, regionAnswer, not_or] at hR
    simp [eventHandler, hT, isDefault, hR.1, hR.2]
  · intro hT hR hM
    simp only [typeAnswer] at hT
    simp only [passesRegion, regionAnswer] at hR
    by_cases hD : s.world.slots h NAME_region = DEFAULT
    · simp [eventHandler, hT, isDefault, isNil, hD, hM]
    · have hI := hR.resolve_left hD
      simp [eventHandler, hT, isDefault, notNil, hD, hM, hI]
  · intro hT hR hM
    simp only [typeAnswer] at hT
    simp only [passesRegion, regionAnswer] at hR
    by_cases hD : s.world.slots h NAME_region = DEFAULT
    · simp [eventHandler, hT, isDefault, isNil, hD, hM, callForward, callbackRun,
        afterCallback, callbackCall]
    · have hI := hR.resolve_left hD
      simp [eventHandler, hT, isDefault, notNil, hD, hM, hI, callForward, callbackRun,
        afterCallback, callbackCall]

/-- The status returned by `eventHandler` as a boolean expression in the
answers of its collaborators. -/
theorem eventHandler_status {σ : Type} (K : Kernel σ) (h ev : Any) (s : State σ) :
    (eventHandler K h ev s).1 =
      (typeAnswer K h ev s.world &&
        ((isDefault (s.world.slots h NAME_region) || regionAnswer K h ev s.world) &&
          (isNil (s.world.slots h NAME_message) || (callbackRun K h ev s.world).1))) := by
  simp only [eventHandler, typeAnswer, regionAnswer, callbackRun, callForward, isDefault,
    isNil, notNil]
  by_cases hT : K.isAEvent s.world ev (s.world.slots h NAME_event) = true
  · by_cases hD : s.world.slots h NAME_region = DEFAULT
    · by_cases hM : s.world.slots h NAME_message = NIL
      · simp [hT, hD, hM]
      · simp [hT, hD, hM]
    · by_cases hM : s.world.slots h NAME_message = NIL
      · by_cases hI : K.insideRegion s.world (s.world.slots h NAME_region)
            (s.world.slots (s.world.slots ev NAME_receiver) NAME_area)
            (K.getAreaPositionEvent s.world ev (s.world.slots ev NAME_receiver)) = true
        · simp [hT, hD, hM, hI]
        · simp [hT, hD, hM, hI]
      · by_cases hI : K.insideRegion s.world (s.world.slots h NAME_region)
            (s.world.slots (s.world.slots ev NAME_receiver) NAME_area)
            (K.getAreaPositionEvent s.world ev (s.world.slots ev NAME_receiver)) = true
        · simp [hT, hD, hM, hI]
        · simp [hT, hD, hM, hI]
  · simp [hT]

/-- The heap after `eventHandler` is the heap before it, or the heap the one
callback invocation left: the function writes nothing itself. -/
theorem eventHandler_heap {σ : Type} (K : Kernel σ) (h ev : Any) (s : State σ) :
    (eventHandler K h ev s).2 = s ∨ (eventHandler K h ev s).2 = afterCallback K h ev s := by
  obtain ⟨h1, h2, h3, h4⟩ := eventHandler_cases K h ev s
  by_cases hT : typeAnswer K h ev s.world = SUCCEED
  · by_cases hR : passesRegion K h ev s.world
    · by_cases hM : s.world.slots h NAME_message = NIL
      · exact Or.inl (by rw [h3 hT hR hM])
      · exact Or.inr (by rw [h4 hT hR hM])
    · exact Or.inl (by rw [h2 hT hR])
  · exact Or.inl (by rw [h1 (by simpa using hT)])

/-- Claim C1: `eventHandler` succeeds if and only if the event type matches,
the region gate is passed (region unset, or position inside the region) and the
message is nil or forwarding it succeeds; so it fails exactly when the type does
not match, or the region is set and the position is not inside, or the message
is present and forwarding it fails. -/
theorem eventHandler_succeeds_iff {σ : Type} (K : Kernel σ) (h ev : Any) (s : State σ) :
    ((eventHandler K h ev s).1 = SUCCEED ↔
      typeAnswer K h ev s.world = SUCCEED ∧
      (s.world.slots h NAME_region = DEFAULT ∨ regionAnswer K h ev s.world = SUCCEED) ∧
      (s.world.slots h NAME_message = NIL ∨ (callbackRun K h ev s.world).1 = SUCCEED)) ∧
    ((eventHandler K h ev s).1 = FAIL ↔
      typeAnswer K h ev s.world = FAIL ∨
      (s.world.slots h NAME_region ≠ DEFAULT ∧ regionAnswer K h ev s.world ≠ SUCCEED) ∨
      (s.world.slots h NAME_message ≠ NIL ∧ (callbackRun K h ev s.world).1 = FAIL)) := by
  obtain ⟨h1, h2, h3, h4⟩ := eventHandler_cases K h ev s
  by_cases hT : typeAnswer K h ev s.world = SUCCEED
  · by_cases hR : passesRegion K h ev s.world
    · by_cases hM : s.world.slots h NAME_message = NIL
      · rw [h3 hT hR hM]
        simp only [passesRegion] at hR
        simp [hT, hM, hR]
        intro hD
        simpa [hD] using hR
      · rw [h4 hT hR hM]
        simp only [passesRegion] at hR
        simp [hT, hM, hR]
        intro hD
        have := hR.resolve_left hD
        simp [this]
    · rw [h2 hT hR]
      simp only [passesRegion, not_or] at hR
      simp [hT, hR.1, hR.2]
  · have hF : typeAnswer K h ev s.world = FAIL := by simpa using hT
    rw [h1 hF]
    simp [hF]

/-- Claim C2: when the event type matches, the region gate is passed and a
message is present, `eventHandler` forwards the message exactly once, to
`getMasterEvent(ev)` with the argument vector `[ev]`, changes the heap only
through that call, and returns the status of that call. -/
theorem eventHandler_forwards {σ : Type} (K : Kernel σ) (h ev : Any) (s : State σ)
    (hT : typeAnswer K h ev s.world = SUCCEED)
    (hR : s.world.slots h NAME_region = DEFAULT ∨ regionAnswer K h ev s.world = SUCCEED)
    (hM : s.world.slots h NAME_message ≠ NIL) :
    (eventHandler K h ev s).1 =
      (K.forwardReceiverCodev (s.world.slots h NAME_message) (K.getMasterEvent s.world ev)
        [ev] s.world).1 ∧
    (eventHandler K h ev s).2.world =
      (K.forwardReceiverCodev (s.world.slots h NAME_message) (K.getMasterEvent s.world ev)
        [ev] s.world).2 ∧
    (eventHandler K h ev s).2.trace =
      s.trace ++ [Call.forward (s.world.slots h NAME_message) (K.getMasterEvent s.world ev) [ev]] ∧
    [ev].length = 1 := by
  rw [(eventHandler_cases K h ev s).2.2.2 hT hR hM]
  exact ⟨rfl, rfl, rfl, rfl⟩

/-- Claim C3: when the event type does not match, `eventHandler` fails whatever
the region and the message of the handler are; heap and trace are unchanged, so
the callback is not invoked. -/
theorem eventHandler_type_mismatch {σ : Type} (K : Kernel σ) (h ev : Any) (s : State σ)
    (hT : K.isAEvent s.world ev (s.world.slots h NAME_event) = FAIL) :
    eventHandler K h ev s = (FAIL, s) :=
  (eventHandler_cases K h ev s).1 hT

/-- Claim C4: when the event type matches, the region of the handler is set and
`insideRegion` on the region, the area of the receiver and the position of the
event relative to the receiver does not succeed, `eventHandler` fails; heap and
trace are unchanged, so the callback is not invoked. -/
theorem eventHandler_outside_region {σ : Type} (K : Kernel σ) (h ev : Any) (s : State σ)
    (hT : K.isAEvent s.world ev (s.world.slots h NAME_event) = SUCCEED)
    (hD : s.world.slots h NAME_region ≠ DEFAULT)
    (hI : K.insideRegion s.world (s.world.slots h NAME_region)
        (s.world.slots (s.world.slots ev NAME_receiver) NAME_area)
        (K.getAreaPositionEvent s.world ev (s.world.slots ev NAME_receiver)) ≠ SUCCEED) :
    eventHandler K h ev s = (FAIL, s) := by
  refine (eventHandler_cases K h ev s).2.1 hT ?_
  simp only [passesRegion, regionAnswer, not_or]
  exact ⟨hD, hI⟩

/-- Claim C5: when the handler has no message, the event type matches and the
region gate is passed, `eventHandler` succeeds and leaves heap and trace
unchanged: no callback invocation and no other effect. -/
theorem eventHandler_no_message {σ : Type} (K : Kernel σ) (h ev : Any) (s : State σ)
    (hM : s.world.slots h NAME_message = NIL)
    (hT : typeAnswer K h ev s.world = SUCCEED)
    (hR : s.world.slots h NAME_region = DEFAULT ∨ regionAnswer K h ev s.world = SUCCEED) :
    eventHandler K h ev s = (SUCCEED, s) :=
  (eventHandler_cases K h ev s).2.2.1 hT hR hM

/-- Scenario for C2: a `ButtonPress` handler without region and with message
object 7 receives a `ButtonPress` event; the message is forwarded once. -/
theorem eventHandler_forwards_witness :
    (eventHandler (sampleKernel SUCCEED) (Any.obj 1) (Any.obj 2)
      (sampleState "ButtonPress" "ButtonPress" (Any.obj 7) DEFAULT 5 5)).1 = SUCCEED ∧
    (eventHandler (sampleKernel SUCCEED) (Any.obj 1) (Any.obj 2)
      (sampleState "ButtonPress" "ButtonPress" (Any.obj 7) DEFAULT 5 5)).2.trace =
      [Call.forward (Any.obj 7) (Any.obj 2) [Any.obj 2]] := by
  have key := eventHandler_forwards (sampleKernel SUCCEED) (Any.obj 1) (Any.obj 2)
    (sampleState "ButtonPress" "ButtonPress" (Any.obj 7) DEFAULT 5 5)
    (by decide) (Or.inl (by decide)) (by decide)
  exact ⟨key.1, key.2.2.1⟩

/-- Scenario for C3: event id `KeyPress`, event type `ButtonPress`. -/
theorem eventHandler_type_mismatch_witness :
    eventHandler (sampleKernel SUCCEED) (Any.obj 1) (Any.obj 2)
        (sampleState "KeyPress" "ButtonPress" (Any.obj 7) DEFAULT 5 5) =
      (FAIL, sampleState "KeyPress" "ButtonPress" (Any.obj 7) DEFAULT 5 5) :=
  eventHandler_type_mismatch (sampleKernel SUCCEED) (Any.obj 1) (Any.obj 2)
    (sampleState "KeyPress" "ButtonPress" (Any.obj 7) DEFAULT 5 5) (by decide)

/-- Scenario for C4: region `Rect(0,0,10,10)` (object 5), event at the
receiver-local position `(50,50)`. -/
theorem eventHandler_outside_region_witness :
    eventHandler (sampleKernel SUCCEED) (Any.obj 1) (Any.obj 2)
        (sampleState "ButtonPress" "ButtonPress" (Any.obj 7) (Any.obj 5) 50 50) =
      (FAIL, sampleState "ButtonPress" "ButtonPress" (Any.obj 7) (Any.obj 5) 50 50) :=
  eventHandler_outside_region (sampleKernel SUCCEED) (Any.obj 1) (Any.obj 2)
    (sampleState "ButtonPress" "ButtonPress" (Any.obj 7) (Any.obj 5) 50 50)
    (by decide) (by decide) (by decide)

/-- Scenario for C5: message absent, type matches, region unset. -/
theorem eventHandler_no_message_witness :
    eventHandler (sampleKernel FAIL) (Any.obj 1) (Any.obj 2)
        (sampleState "ButtonPress" "ButtonPress" NIL DEFAULT 5 5) =
      (SUCCEED, sampleState "ButtonPress" "ButtonPress" NIL DEFAULT 5 5) :=
  eventHandler_no_message (sampleKernel FAIL) (Any.obj 1) (Any.obj 2)
    (sampleState "ButtonPress" "ButtonPress" NIL DEFAULT 5 5)
    (by decide) (by decide) (Or.inl (by decide))

/-- Counterexample to C6 as stated: the event type matches and the region is
unset, yet `eventHandler` fails, because the message is present and forwarding
it fails. -/
theorem eventHandler_unset_region_may_fail :
    typeAnswer (sampleKernel FAIL) (Any.obj 1) (Any.obj 2)
        (sampleState "ButtonPress" "ButtonPress" (Any.obj 7) DEFAULT 5 5).world = SUCCEED ∧
    (sampleState "ButtonPress" "ButtonPress" (Any.obj 7) DEFAULT 5 5).world.slots
        (Any.obj 1) NAME_region = DEFAULT ∧
    (eventHandler (sampleKernel FAIL) (Any.obj 1) (Any.obj 2)
        (sampleState "ButtonPress" "ButtonPress" (Any.obj 7) DEFAULT 5 5)).1 = FAIL := by
  decide

/-- Claim C6, amended: when the event type matches and the region is unset,
`eventHandler` succeeds without any effect if no message is present, and
otherwise forwards the message once and returns the status of that call; so it
fails only when the message is present and forwarding it fails. -/
theorem eventHandler_unset_region {σ : Type} (K : Kernel σ) (h ev : Any) (s : State σ)
    (hT : typeAnswer K h ev s.world = SUCCEED)
    (hD : s.world.slots h NAME_region = DEFAULT) :
    (s.world.slots h NAME_message = NIL → eventHandler K h ev s = (SUCCEED, s)) ∧
    (s.world.slots h NAME_message ≠ NIL →
      eventHandler K h ev s = ((callbackRun K h ev s.world).1, afterCallback K h ev s)) ∧
    ((eventHandler K h ev s).1 = FAIL ↔
      s.world.slots h NAME_message ≠ NIL ∧ (callbackRun K h ev s.world).1 = FAIL) := by
  obtain ⟨_, _, h3, h4⟩ := eventHandler_cases K h ev s
  have hR : passesRegion K h ev s.world := Or.inl hD
  refine ⟨h3 hT hR, h4 hT hR, ?_⟩
  by_cases hM : s.world.slots h NAME_message = NIL
  · rw [h3 hT hR hM]
    simp [hM]
  · rw [h4 hT hR hM]
    simp [hM]

/-- Scenario for the amended C6: region unset, message present and succeeding. -/
theorem eventHandler_unset_region_witness :
    (eventHandler (sampleKernel SUCCEED) (Any.obj 1) (Any.obj 2)
        (sampleState "ButtonPress" "ButtonPress" (Any.obj 7) DEFAULT 5 5)).1 ≠ FAIL := by
  have key := (eventHandler_unset_region (sampleKernel SUCCEED) (Any.obj 1) (Any.obj 2)
    (sampleState "ButtonPress" "ButtonPress" (Any.obj 7) DEFAULT 5 5)
    (by decide) (by decide)).2.2
  intro hF
  exact absurd (key.mp hF).2 (by decide)

/-- Counterexample to C7 as stated: the type test, the region test and the
callback answer at the second call exactly as at the first (the callback fails
at every call), yet the first call of `eventHandler` fails and the second
succeeds, because the callback cleared the message of the handler. -/
theorem eventHandler_twice_differs :
    typeAnswer clearingKernel (Any.obj 1) (Any.obj 2)
        (eventHandler clearingKernel (Any.obj 1) (Any.obj 2)
          (sampleState "ButtonPress" "ButtonPress" (Any.obj 7) DEFAULT 5 5)).2.world =
      typeAnswer clearingKernel (Any.obj 1) (Any.obj 2)
        (sampleState "ButtonPress" "ButtonPress" (Any.obj 7) DEFAULT 5 5).world ∧
    regionAnswer clearingKernel (Any.obj 1) (Any.obj 2)
        (eventHandler clearingKernel (Any.obj 1) (Any.obj 2)
          (sampleState "ButtonPress" "ButtonPress" (Any.obj 7) DEFAULT 5 5)).2.world =
      regionAnswer clearingKernel (Any.obj 1) (Any.obj 2)
        (sampleState "ButtonPress" "ButtonPress" (Any.obj 7) DEFAULT 5 5).world ∧
    (∀ (msg receiver : Any) (argv : List Any) (w : World Nat),
      (clearingKernel.forwardReceiverCodev msg receiver argv w).1 = FAIL) ∧
    (eventHandler clearingKernel (Any.obj 1) (Any.obj 2)
        (sampleState "ButtonPress" "ButtonPress" (Any.obj 7) DEFAULT 5 5)).1 = FAIL ∧
    (eventHandler clearingKernel (Any.obj 1) (Any.obj 2)
      (eventHandler clearingKernel (Any.obj 1) (Any.obj 2)
        (sampleState "ButtonPress" "ButtonPress" (Any.obj 7) DEFAULT 5 5)).2).1 = SUCCEED := by
  refine ⟨by decide, by decide, fun _ _ _ _ => rfl, by decide, by decide⟩

/-- Claim C7, amended: calling `eventHandler` twice in succession with the same
handler and event returns the same status both times, provided the callback
leaves the region and the message of the handler as they were, and the type
test, the region test and the callback answer in the heap the callback leaves
as they do in the heap before the first call.  The first call itself leaves the
state as it was or as the callback left it. -/
theorem eventHandler_twice {σ : Type} (K : Kernel σ) (h ev : Any) (s : State σ)
    (hReg : (callbackRun K h ev s.world).2.slots h NAME_region = s.world.slots h NAME_region)
    (hMsg : (callbackRun K h ev s.world).2.slots h NAME_message = s.world.slots h NAME_message)
    (hA : typeAnswer K h ev (callbackRun K h ev s.world).2 = typeAnswer K h ev s.world)
    (hI : regionAnswer K h ev (callbackRun K h ev s.world).2 = regionAnswer K h ev s.world)
    (hC : (callbackRun K h ev (callbackRun K h ev s.world).2).1 =
      (callbackRun K h ev s.world).1) :
    (eventHandler K h ev (eventHandler K h ev s).2).1 = (eventHandler K h ev s).1 ∧
    ((eventHandler K h ev s).2 = s ∨ (eventHandler K h ev s).2 = afterCallback K h ev s) := by
  refine ⟨?_, eventHandler_heap K h ev s⟩
  rcases eventHandler_heap K h ev s with hS | hS
  · rw [hS]
  · rw [hS, eventHandler_status K h ev (afterCallback K h ev s)]
    have hW : (afterCallback K h ev s).world = (callbackRun K h ev s.world).2 := rfl
    rw [hW, hReg, hMsg, hA, hI, hC, ← eventHandler_status K h ev s]

/-- Scenario for the amended C7: the callback counts its invocations in the
heap, leaves the handler alone and succeeds each time; both calls forward the
message and succeed. -/
theorem eventHandler_twice_witness :
    (eventHandler (sampleKernel SUCCEED) (Any.obj 1) (Any.obj 2)
      (eventHandler (sampleKernel SUCCEED) (Any.obj 1) (Any.obj 2)
        (sampleState "ButtonPress" "ButtonPress" (Any.obj 7) (Any.obj 5) 5 5)).2).1 =
    (eventHandler (sampleKernel SUCCEED) (Any.obj 1) (Any.obj 2)
        (sampleState "ButtonPress" "ButtonPress" (Any.obj 7) (Any.obj 5) 5 5)).1 :=
  (eventHandler_twice (sampleKernel SUCCEED) (Any.obj 1) (Any.obj 2)
    (sampleState "ButtonPress" "ButtonPress" (Any.obj 7) (Any.obj 5) 5 5)
    (by decide) (by decide) (by decide) (by decide) (by decide)).1

/-- Claim C9: `eventHandler` does not read `active`.  Two handlers that agree
on event, message and region, one active and one not, give the same status, the
same heap and the same logged callback invocation for every event; so the
inactive one still forwards its message on a matching event. -/
theorem eventHandler_ignores_active {σ : Type} (K : Kernel σ) (h1 h2 ev : Any) (s : State σ)
    (_hOn : s.world.slots h1 NAME_active = ON)
    (_hOff : s.world.slots h2 NAME_active = OFF)
    (hE : s.world.slots h1 NAME_event = s.world.slots h2 NAME_event)
    (hM : s.world.slots h1 NAME_message = s.world.slots h2 NAME_message)
    (hR : s.world.slots h1 NAME_region = s.world.slots h2 NAME_region) :
    eventHandler K h1 ev s = eventHandler K h2 ev s ∧
    (typeAnswer K h2 ev s.world = SUCCEED → passesRegion K h2 ev s.world →
      s.world.slots h2 NAME_message ≠ NIL →
      eventHandler K h2 ev s = ((callbackRun K h2 ev s.world).1, afterCallback K h2 ev s)) := by
  refine ⟨?_, (eventHandler_cases K h2 ev s).2.2.2⟩
  simp only [eventHandler, hE, hM, hR]

/-- Scenario for C9: handler 1 is active, handler 8 is not, both forward. -/
theorem eventHandler_ignores_active_witness :
    eventHandler (sampleKernel SUCCEED) (Any.obj 1) (Any.obj 2)
        (sampleState "ButtonPress" "ButtonPress" (Any.obj 7) DEFAULT 5 5) =
      eventHandler (sampleKernel SUCCEED) (Any.obj 8) (Any.obj 2)
        (sampleState "ButtonPress" "ButtonPress" (Any.obj 7) DEFAULT 5 5) :=
  (eventHandler_ignores_active (sampleKernel SUCCEED) (Any.obj 1) (Any.obj 8) (Any.obj 2)
    (sampleState "ButtonPress" "ButtonPress" (Any.obj 7) DEFAULT 5 5)
    (by decide) (by decide) (by decide) (by decide) (by decide)).1

/-! ## Results on view.c -/

/-- The calls made by `editorView` on a view that shows an editor, in order:
the `destroy` message goes to `NIL`, the value the editor variable has after
the preceding `assign`, and never to the editor that was shown.  At the end the
function succeeds and `keyboard_focus` is the new editor. -/
theorem editorView_calls {σ : Type} (K : Kernel σ) (v editor : Any) (s : State σ)
    (hOld : s.world.slots v NAME_editor ≠ NIL) :
    (∃ m : Option Any, (editorView K v editor s).2.trace =
      s.trace ++ [Call.send NIL NAME_destroy [], Call.send editor NAME_set [ZERO, ZERO],
        Call.send v NAME_display [editor],
        Call.newObject K.ClassMessage [editor, Any.name NAME_Size, K.Arg 2],
        Call.send v NAME_resizeMessage (argsUpToNull m)]) ∧
    (∀ argv, Call.send (s.world.slots v NAME_editor) NAME_destroy argv ∉
      (editorView K v editor s).2.trace.drop s.trace.length) ∧
    (editorView K v editor s).1 = SUCCEED ∧
    (editorView K v editor s).2.world.slots v NAME_keyboard_focus = editor := by
  have hT : ∃ m : Option Any, (editorView K v editor s).2.trace =
      s.trace ++ [Call.send NIL NAME_destroy [], Call.send editor NAME_set [ZERO, ZERO],
        Call.send v NAME_display [editor],
        Call.newObject K.ClassMessage [editor, Any.name NAME_Size, K.Arg 2],
        Call.send v NAME_resizeMessage (argsUpToNull m)] := by
    simp only [editorView, notNil, callSend, callNewObject]
    simp [hOld, assign]
  refine ⟨hT, ?_, rfl, ?_⟩
  · obtain ⟨m, hm⟩ := hT
    intro argv
    rw [hm, List.drop_left]
    simp [NAME_destroy, NAME_set, NAME_display, NAME_resizeMessage]
    intro hNil
    exact absurd hNil hOld
  · simp [editorView, assign]

/-- Claim C10, evaluated on a view (object 9) that shows editor 10 and is given
editor 11: the `destroy` message is sent to `NIL`, editor 10 receives nothing,
and afterwards the editor variable and `keyboard_focus` are both editor 11. -/
theorem editorView_destroy_misses_old_editor :
    (sampleState "ButtonPress" "ButtonPress" NIL DEFAULT 5 5).world.slots
        (Any.obj 9) NAME_editor = Any.obj 10 ∧
    (editorView (sampleKernel SUCCEED) (Any.obj 9) (Any.obj 11)
        (sampleState "ButtonPress" "ButtonPress" NIL DEFAULT 5 5)).2.trace =
      [Call.send NIL NAME_destroy [], Call.send (Any.obj 11) NAME_set [ZERO, ZERO],
        Call.send (Any.obj 9) NAME_display [Any.obj 11],
        Call.newObject (Any.name "message") [Any.obj 11, Any.name NAME_Size, Any.obj 202],
        Call.send (Any.obj 9) NAME_resizeMessage [Any.obj 100]] ∧
    Call.send (Any.obj 10) NAME_destroy [] ∉
      (editorView (sampleKernel SUCCEED) (Any.obj 9) (Any.obj 11)
        (sampleState "ButtonPress" "ButtonPress" NIL DEFAULT 5 5)).2.trace ∧
    (editorView (sampleKernel SUCCEED) (Any.obj 9) (Any.obj 11)
        (sampleState "ButtonPress" "ButtonPress" NIL DEFAULT 5 5)).2.world.slots
        (Any.obj 9) NAME_editor = Any.obj 11 ∧
    (editorView (sampleKernel SUCCEED) (Any.obj 9) (Any.obj 11)
        (sampleState "ButtonPress" "ButtonPress" NIL DEFAULT 5 5)).2.world.slots
        (Any.obj 9) NAME_keyboard_focus = Any.obj 11 := by
  decide

end XPCE
